import Mathlib

/-!
Shallow embedding of the hubspot-mcp repository (Python) in Lean 4.

The embedding covers the parts of the code the verified claims are about:

* `src/hubspot/connection.py`  — credential resolution
  (`get_connection_credentials`, `get_access_token`);
* `src/hubspot/server.py`      — the dispatcher (`call_tool`) and its routing
  of tool names to handler objects;
* `src/hubspot/tools/company.py` — `HubSpotClient` (its method table,
  `_normalize_domain`, `search_company_by_domain`, `get_all_companies`);
* `src/hubspot/tools/contact.py` — `HubSpotContactCreator.create_contact`,
  and the second, never-imported `HubSpotClient.get_all_contacts`;
* `src/hubspot/tools/deal.py`  — the pagination loop of `get_all_deals`;
* `src/hubspot/tools/engagement.py` — the pagination loop of `get_engagements`.

External effects (environment variables, the Nango broker, outbound HTTP
requests) are modelled as explicit oracle inputs; counters of broker / HTTP
calls are threaded through as explicit outputs.
-/

namespace HubSpot

/-- JSON values, as produced by `response.json()` / `json.dumps`. -/
inductive Json where
  | null : Json
  | bool (b : Bool) : Json
  | str (s : String) : Json
  | num (n : Int) : Json
  | arr (xs : List Json) : Json
  | obj (fields : List (String × Json)) : Json

/-- Field lookup, `d.get(key)` on a JSON object: first field with the given
key, if any.  Non-objects have no fields. -/
def Json.getField : Json → String → Option Json
  | .obj fields, key =>
      match fields.find? (fun f => f.1 = key) with
      | some f => some f.2
      | none => none
  | _, _ => none

/-- Python truthiness of a JSON value (`if not access_token: ...`). -/
def Json.truthy : Json → Bool
  | .null => false
  | .bool b => b
  | .str s => s ≠ ""
  | .num n => n ≠ 0
  | .arr xs => !xs.isEmpty
  | .obj fields => !fields.isEmpty

/-- Python truthiness of `os.environ.get(...)`: `None` and `""` are falsy. -/
def envTruthy : Option String → Bool
  | none => false
  | some s => s ≠ ""

/-- The Python exceptions the modelled code can raise.  `str(e)` of each of
these exception classes is its message. -/
inductive PyError where
  | valueError (msg : String) : PyError
  | attributeError (msg : String) : PyError
  | typeError (msg : String) : PyError
  deriving DecidableEq, Repr

/-- Rendering `str(e)` for the modelled exceptions: the message. -/
def strOfError : PyError → String
  | .valueError m => m
  | .attributeError m => m
  | .typeError m => m

/-! ## `connection.py`: credential resolution -/

/-- The environment variables `connection.py` reads. -/
structure Env where
  nango_connection_id : Option String
  nango_integration_id : Option String
  nango_base_url : Option String
  nango_secret_key : Option String
  hubspot_access_token : Option String
  deriving Repr

/-- Negation of `not all([connection_id, integration_id, base_url,
secret_key])`: all four Nango variables are set and non-empty. -/
def Env.nangoConfigComplete (env : Env) : Bool :=
  envTruthy env.nango_connection_id && envTruthy env.nango_integration_id &&
  envTruthy env.nango_base_url && envTruthy env.nango_secret_key

/-- The `missing_vars` list built in `get_connection_credentials`
(`connection.py` lines 21–29), in source order. -/
def Env.missingVars (env : Env) : List String :=
  (if envTruthy env.nango_connection_id then [] else ["NANGO_CONNECTION_ID"]) ++
  (if envTruthy env.nango_integration_id then [] else ["NANGO_INTEGRATION_ID"]) ++
  (if envTruthy env.nango_base_url then [] else ["NANGO_BASE_URL"]) ++
  (if envTruthy env.nango_secret_key then [] else ["NANGO_SECRET_KEY"])

/-- Outcome of the single `requests.get` against the Nango broker:
either a 2xx response whose body parses to `body` (after
`raise_for_status` passes), or a `requests.exceptions.RequestException`
whose `str` is `msg` (this covers timeouts, connection failures and the
`HTTPError` raised by `raise_for_status` on non-2xx). -/
inductive BrokerReply where
  | ok (body : Json) : BrokerReply
  | failure (msg : String) : BrokerReply

/-- Model of `get_connection_credentials` (`connection.py` lines 13–48).
Returns the parsed credentials or the raised `ValueError`, paired with the
number of broker HTTP requests performed. -/
def get_connection_credentials (env : Env) (broker : BrokerReply) :
    Except PyError Json × Nat :=
  if env.nangoConfigComplete then
    match broker with
    | .ok body => (.ok body, 1)
    | .failure msg =>
        (.error (.valueError
          ("Failed to get connection credentials from Nango: " ++ msg)), 1)
  else
    (.error (.valueError
      ("Missing required environment variables: " ++
        String.intercalate ", " env.missingVars)), 0)

/-- Token extraction `credentials.get("credentials", dict()).get("access_token")`. -/
def extractToken (creds : Json) : Option Json :=
  ((creds.getField "credentials").getD (Json.obj [])).getField "access_token"

/-- The body of the `try` block of `get_access_token`
(`connection.py` lines 52–58): resolve credentials through the broker and
extract a truthy `credentials.access_token`, raising `ValueError` otherwise. -/
def resolveBrokerToken (env : Env) (broker : BrokerReply) :
    Except PyError Json × Nat :=
  match get_connection_credentials env broker with
  | (.error e, n) => (.error e, n)
  | (.ok creds, n) =>
      match extractToken creds with
      | some tok =>
          if tok.truthy then (.ok tok, n)
          else (.error (.valueError "Access token not found in credentials response"), n)
      | none =>
          (.error (.valueError "Access token not found in credentials response"), n)

/-- Model of `get_access_token` (`connection.py` lines 50–66): try the broker; on any
exception fall back to `HUBSPOT_ACCESS_TOKEN` when that is set and
non-empty, else re-raise `ValueError("Failed to get access token: ...")`.
The `Nat` component counts broker HTTP requests made by this call. -/
def get_access_token (env : Env) (broker : BrokerReply) :
    Except PyError Json × Nat :=
  match resolveBrokerToken env broker with
  | (.ok tok, n) => (.ok tok, n)
  | (.error e, n) =>
      if envTruthy env.hubspot_access_token then
        (.ok (.str (env.hubspot_access_token.getD "")), n)
      else
        (.error (.valueError ("Failed to get access token: " ++ strOfError e)), n)

/-- Two sequential calls to `get_access_token` in one process.
`connection.py` holds no mutable state (no cache variable), so the second
call is an independent evaluation; the `Nat` is the total number of broker
HTTP requests across both calls. -/
def get_access_token_twice (env : Env) (broker : BrokerReply) :
    (Except PyError Json × Except PyError Json) × Nat :=
  let r1 := get_access_token env broker
  let r2 := get_access_token env broker
  ((r1.1, r2.1), r1.2 + r2.2)

/-! ## `server.py`: the dispatcher `call_tool` -/

/-- Outcome of running a handler body: a returned value or a raised
exception. -/
inductive HOutcome where
  | ret (v : Json) : HOutcome
  | raise (e : PyError) : HOutcome

/-- One handler invocation as observed at the dispatcher boundary: its
outcome and the number of outbound HTTP requests it performed while
running. -/
structure Invocation where
  outcome : HOutcome
  httpCalls : Nat

/-- The tool names recognised by the `elif` chain of `call_tool`
(`server.py` lines 367–410), in source order. -/
def toolNames : List String :=
  ["create_company", "get_company_details", "update_company", "delete_company",
   "get_all_companies", "get_filtered_companies", "search_company_by_domain",
   "get_recent_companies", "create_contact", "get_contact_by_email",
   "update_contact_by_email", "delete_contact_by_id", "delete_contact_by_email",
   "search_contacts", "get_all_contacts", "get_recent_contacts",
   "add_contact_to_list", "remove_contact_from_list"]

/-- The methods defined on the `HubSpotClient` class of
`tools/company.py` (the class `server.py` imports), transcribed from the
class body. -/
def companyClientMethods : List String :=
  ["__init__", "create_company", "delete_company", "get_company_details",
   "get_filtered_companies", "validate_industry", "update_company",
   "search_company_by_domain", "_normalize_domain", "get_recent_companies",
   "get_all_companies"]

/-- Tool names that `call_tool` routes to `self.hubspot_client`, i.e. to the
`tools/company.py` `HubSpotClient` instance, calling the method of the same
name (`server.py` lines 369–382 and 396–397). -/
def companyRoutedTools : List String :=
  ["get_company_details", "update_company", "delete_company",
   "get_all_companies", "get_filtered_companies", "search_company_by_domain",
   "get_recent_companies", "get_all_contacts"]

/-- The message of the `AttributeError` Python raises for a missing
attribute on the company-module `HubSpotClient` class. -/
def noAttrMsg (m : String) : String :=
  "\x27HubSpotClient\x27 object has no attribute \x27" ++ m ++ "\x27"

/-- Python attribute access `self.hubspot_client.<m>(...)` on an existing
client instance: when the class defines `m` the handler runs; otherwise
`AttributeError` is raised before any handler body executes, so no HTTP
request happens. -/
def companyClientCall (m : String) (inv : Invocation) : Invocation :=
  if m ∈ companyClientMethods then inv
  else ⟨.raise (.attributeError (noAttrMsg m)), 0⟩

/-- The error dict built in the `except` clause of `call_tool`
(`server.py` lines 420–424): keys `error`, `tool`, `arguments`, and no
`result` key. -/
def errorResponse (msg name : String) (args : Json) : Json :=
  .obj [("error", .str msg), ("tool", .str name), ("arguments", args)]

/-- The invocation the dispatcher performs for a known tool name, given the
per-tool handler behaviour `w`: company-routed tools go through attribute
lookup on the company client, the rest call their dedicated handler
objects, whose classes all define the accessed method. -/
def dispatchInvocation (w : String → Invocation) (name : String) : Invocation :=
  if name ∈ companyRoutedTools then companyClientCall name (w name) else w name

/-- Model of `call_tool` (`server.py` lines 360–426).  Input `w` gives, for
each tool name, the behaviour of its handler for this invocation
(`w` is only consulted for the name actually routed).  The output is the
JSON carried by the returned `TextContent` (on success
`json.dumps(result)`, i.e. the handler value verbatim; on any caught
exception the error dict) together with the number of outbound HTTP
requests performed during the call. -/
def call_tool (w : String → Invocation) (name : String) (args : Json) :
    Json × Nat :=
  if name ∈ toolNames then
    match dispatchInvocation w name with
    | ⟨.ret v, n⟩ => (v, n)
    | ⟨.raise e, n⟩ => (errorResponse (strOfError e) name args, n)
  else (errorResponse ("Unknown tool: " ++ name) name args, 0)

/-- A field that is absent or JSON `null`. -/
def isNullish : Option Json → Bool
  | none => true
  | some .null => true
  | some _ => false

/-- The Envelope invariant of the specification: exactly one of the
`result` / `error` fields of a terminal response is non-null. -/
def envelopeExactlyOne (j : Json) : Bool :=
  xor (!isNullish (j.getField "result")) (!isNullish (j.getField "error"))

/-- The attribute-lookup step of the `get_all_contacts` branch once a
company client instance exists: `client.get_all_contacts()` goes through
`companyClientCall`, and the outcome is packaged by `call_tool`'s
success/except paths.  `brokerCalls` HTTP requests already happened while
obtaining the client; the flag records that the client now exists. -/
def companyAttrStep (w : String → Invocation) (args : Json)
    (brokerCalls : Nat) : Json × Nat × Bool :=
  match companyClientCall "get_all_contacts" (w "get_all_contacts") with
  | ⟨.ret v, k⟩ => (v, brokerCalls + k, true)
  | ⟨.raise e, k⟩ =>
      (errorResponse (strOfError e) "get_all_contacts" args, brokerCalls + k, true)

/-- Refined model of the `get_all_contacts` branch of `call_tool`
(`server.py` lines 396–397), making the lazy `hubspot_client` property
(`server.py` lines 58–63) explicit: when `self._hubspot_client` is `None`
(`constructed = false`), the property first runs `HubSpotClient()`, whose
`__init__` (`tools/company.py` lines 12–15) calls `get_access_token()` —
which may perform a broker HTTP request and may raise, in which case
`call_tool`'s `except` turns the credential `ValueError` into the error
response and the client stays unconstructed.  Only once a client exists
does the lookup of the undefined `get_all_contacts` attribute raise
`AttributeError`.  Output: the response JSON, the total number of outbound
HTTP requests (broker request included), and the new constructed flag. -/
def call_tool_get_all_contacts (w : String → Invocation) (constructed : Bool)
    (env : Env) (broker : BrokerReply) (args : Json) : Json × Nat × Bool :=
  if constructed then companyAttrStep w args 0
  else
    match get_access_token env broker with
    | (.ok _, n) => companyAttrStep w args n
    | (.error e, n) =>
        (errorResponse (strOfError e) "get_all_contacts" args, n, false)

/-! ## Handlers -/

/-- Outcome of a single `requests` call made by a handler: a 2xx response
whose body parses to `body`, or a `requests.exceptions.RequestException`
whose `str` is `excStr` (covering network failures and the `HTTPError`
from `raise_for_status`); `details`, when present, is the rendered text of
`e.response.json()` for exceptions that carry a parseable response. -/
inductive ReqOutcome where
  | success (body : Json) : ReqOutcome
  | failure (excStr : String) (details : Option String) : ReqOutcome

/-- Model of `HubSpotContactCreator.create_contact`
(`tools/contact.py` lines 565–622), given the outcome of its one POST.
Returns the handler value and the number of HTTP requests (always 1). -/
def create_contact (r : ReqOutcome) : Json × Nat :=
  match r with
  | .success body =>
      (.obj [("status", .str "success"), ("contact", body)], 1)
  | .failure excStr details =>
      let base := "Error creating HubSpot contact: " ++ excStr
      let msg := match details with
        | some t => base ++ " - Details: " ++ t
        | none => base
      (.obj [("status", .str "failed"), ("error", .str msg)], 1)

/-- Model of `HubSpotClient.get_all_companies`
(`tools/company.py` lines 546–585): one GET, no pagination; on 2xx the
envelope result is `response.json().get("results", [])`. -/
def get_all_companies (r : ReqOutcome) : Json × Nat :=
  match r with
  | .success body =>
      (.obj [("result", (body.getField "results").getD (.arr [])),
             ("error", .null)], 1)
  | .failure excStr _ =>
      (.obj [("result", .null),
             ("error", .str ("API request failed: " ++ excStr))], 1)

/-- Coercion of a JSON value to the list `deals.extend(...)` iterates over
(the API returns a JSON array under `results`). -/
def Json.asList : Json → List Json
  | .arr xs => xs
  | _ => []

/-- Success envelope `dict(result=<list>, error=None)` returned by the
list-all handlers. -/
def okListEnvelope (xs : List Json) : Json :=
  .obj [("result", .arr xs), ("error", .null)]

/-- Outcome of one `requests.get` of the `get_all_deals` loop: a 2xx
response with JSON `body`, a non-2xx response (with the pieces the code
folds into its error message), or a raised exception with `str` `msg`. -/
inductive PageReply where
  | ok (body : Json) : PageReply
  | httpError (status : Nat) (reason url text : String) : PageReply
  | exn (msg : String) : PageReply

/-- Model of the `while True` pagination loop of
`HubSpotClient.get_all_deals` (`tools/deal.py` lines 429–451).
Arguments: the page fetcher (indexed by the current `params["after"]`
value, absent on the first iteration), remaining fuel, current cursor,
accumulated deals, and fetch count so far.  Returns `none` when the fuel
runs out before the loop exits — the loop itself has no bound, so
`none` for every fuel value models non-termination — else the handler
value paired with the number of fetches performed. -/
def dealsLoop (fetch : Option Json → PageReply) :
    Nat → Option Json → List Json → Nat → Option (Json × Nat)
  | 0, _, _, _ => none
  | fuel + 1, after, acc, calls =>
    match fetch after with
    | .exn msg =>
        some (.obj [("result", .null),
                    ("error", .str ("API request failed: " ++ msg))], calls + 1)
    | .httpError status reason url text =>
        some (.obj [("result", .null),
                    ("error", .str ("API request failed: " ++ toString status ++
                      " " ++ reason ++ " for url: " ++ url ++ ". Details: " ++
                      text))], calls + 1)
    | .ok body =>
        let acc2 := acc ++ Json.asList ((body.getField "results").getD (.arr []))
        match body.getField "paging" with
        | none => some (okListEnvelope acc2, calls + 1)
        | some paging =>
          match paging.getField "next" with
          | none => some (okListEnvelope acc2, calls + 1)
          | some nxt =>
            match nxt.getField "after" with
            | none =>
                -- KeyError("after") caught by the outer `except Exception`
                some (.obj [("result", .null),
                            ("error", .str "Unexpected error: \x27after\x27")],
                      calls + 1)
            | some a => dealsLoop fetch fuel (some a) acc2 (calls + 1)

/-- Model of `HubSpotClient.get_all_deals` (`tools/deal.py` lines 414–461):
run the pagination loop from no cursor with the given fuel. -/
def get_all_deals (fetch : Option Json → PageReply) (fuel : Nat) :
    Option (Json × Nat) :=
  dealsLoop fetch fuel none [] 0

/-- Outcome of one `requests.get` of the `get_engagements` loop: a 200
response with JSON `body`, a non-200 response (with the status and the
message text the code interpolates), or a raised exception. -/
inductive EngReply where
  | ok (body : Json) : EngReply
  | httpError (status : Nat) (message : String) : EngReply
  | exn (msg : String) : EngReply

/-- Model of the `while endpoint:` pagination loop of `get_engagements`
(`tools/engagement.py` lines 277–291).  The cursor is the full next-link
URL; `none` or `""` is falsy and ends the loop.  The next link is read
from `response_data.get("paging", dict()).get("next", dict()).get("link")`
(assumed a string when present).  Fuel exhaustion before loop exit is
`none`. -/
def engagementsLoop (fetch : String → EngReply) :
    Nat → Option String → List Json → Nat → Option (Json × Nat)
  | _, none, acc, calls => some (okListEnvelope acc, calls)
  | fuel, some ep, acc, calls =>
    if ep = "" then some (okListEnvelope acc, calls)
    else
      match fuel with
      | 0 => none
      | fuel + 1 =>
        match fetch ep with
        | .exn msg =>
            some (.obj [("result", .null),
                        ("error", .str ("Error fetching engagements: " ++ msg))],
                  calls + 1)
        | .httpError status message =>
            some (.obj [("result", .null),
                        ("error", .str ("Failed to fetch engagements: " ++
                          toString status ++ " " ++ message))], calls + 1)
        | .ok body =>
            let acc2 := acc ++ Json.asList ((body.getField "results").getD (.arr []))
            let link := ((((body.getField "paging").getD (.obj [])).getField
              "next").getD (.obj [])).getField "link"
            let ep2 : Option String := match link with
              | some (.str s) => some s
              | _ => none
            engagementsLoop fetch fuel ep2 acc2 (calls + 1)

/-- Model of `get_engagements` (`tools/engagement.py` lines 268–296): run
the loop from the engagements endpoint URL with the given fuel. -/
def get_engagements (fetch : String → EngReply) (fuel : Nat) :
    Option (Json × Nat) :=
  engagementsLoop fetch fuel
    (some "https://api.hubapi.com/crm/v3/objects/engagements") [] 0

/-! ## `tools/company.py`: domain normalization and the search payload -/

/-- Characters allowed in a URL scheme (`urllib.parse`):
letters, digits, and the three RFC 3986 extras. -/
def schemeChar (c : Char) : Bool :=
  c.isAlphanum || c = '+' || c = '-' || c = '.'

/-- Scheme removal step of `urllib.parse.urlparse`: when the input has a
colon preceded by a non-empty valid scheme (first character a letter),
drop the scheme and the colon; otherwise leave the input unchanged. -/
def splitScheme (cs : List Char) : List Char :=
  match cs.findIdx? (fun c => c = ':') with
  | some i =>
      if decide (0 < i) && (cs.headD ' ').isAlpha && (cs.take i).all schemeChar
      then cs.drop (i + 1) else cs
  | none => cs

/-- Netloc split of `urllib.parse.urlparse` after a leading `//`: the
netloc runs up to the first `/`, `?` or `#`; the remainder is the path
part. -/
def splitNetloc (cs : List Char) : List Char × List Char :=
  let isDelim := fun (c : Char) => c = '/' || c = '?' || c = '#'
  (cs.takeWhile (fun c => !isDelim c), cs.dropWhile (fun c => !isDelim c))

/-- The `(netloc, path)` pair of `urllib.parse.urlparse` as used by
`_normalize_domain` (query/fragment splitting omitted: the modelled inputs
carry neither). -/
def urlparseNetlocPath (url : String) : String × String :=
  match splitScheme url.toList with
  | '/' :: '/' :: rest =>
      let (n, p) := splitNetloc rest
      (String.mk n, String.mk p)
  | cs => ("", String.mk cs)

/-- Python `s.lstrip(chars)`: remove leading characters belonging to the
character SET `chars` (not the prefix `chars`). -/
def pyLstrip (s : String) (chars : List Char) : String :=
  String.mk (s.toList.dropWhile (fun c => chars.contains c))

/-- Python `s.startswith(pre)`: prefix test. -/
def pyStartsWith (s pre : String) : Bool :=
  pre.toList.isPrefixOf s.toList

/-- Model of `HubSpotClient._normalize_domain`
(`tools/company.py` lines 493–496): take the netloc if non-empty else the
path, then `lstrip("www.")` when the value starts with `www.`. -/
def _normalize_domain (domain : String) : String :=
  let parsed := urlparseNetlocPath domain
  let d := if parsed.1 ≠ "" then parsed.1 else parsed.2
  if pyStartsWith d "www." then pyLstrip d "www.".toList else d

/-- The normalization the specification and the code's own comment
describe (remove the literal prefix `www.` when present), stated for
comparison with `_normalize_domain`. -/
def stripWwwPrefixSpec (d : String) : String :=
  if pyStartsWith d "www." then String.mk (d.toList.drop 4) else d

/-- The search payload built by `HubSpotClient.search_company_by_domain`
(`tools/company.py` lines 439–471): the filter value is the normalized
domain. -/
def search_company_by_domain_payload (domain : String) (limit : Int) : Json :=
  .obj [
    ("filterGroups", .arr [
      .obj [("filters", .arr [
        .obj [("propertyName", .str "domain"), ("operator", .str "EQ"),
              ("value", .str (_normalize_domain domain))]])]]),
    ("properties", .arr [.str "name", .str "domain", .str "industry",
      .str "createdate", .str "hs_lastmodifieddate"]),
    ("limit", .num limit)]

/-! ## Fetcher scenarios used by the pagination claims -/

/-- A page fetcher that repeats its cursor: every page reports
`paging.next.after = "c1"`, in particular the page fetched at cursor `c1`
again reports `c1`. -/
def stallDealsFetcher : Option Json → PageReply := fun _ =>
  .ok (.obj [("results", .arr []),
             ("paging", .obj [("next", .obj [("after", .str "c1")])])])

/-- An engagements fetcher that repeats its cursor: every page reports
`paging.next.link` equal to the URL just fetched. -/
def stallEngFetcher : String → EngReply := fun ep =>
  .ok (.obj [("results", .arr []),
             ("paging", .obj [("next", .obj [("link", .str ep)])])])

/-- A fetcher serving three pages with cursors `c1`, `c2`, then none,
carrying items `p1`, `p2`, `p3`. -/
def threePageFetcher (p1 p2 p3 : List Json) : Option Json → PageReply := fun c =>
  match c with
  | none => .ok (.obj [("results", .arr p1),
      ("paging", .obj [("next", .obj [("after", .str "c1")])])])
  | some (.str "c1") => .ok (.obj [("results", .arr p2),
      ("paging", .obj [("next", .obj [("after", .str "c2")])])])
  | some (.str "c2") => .ok (.obj [("results", .arr p3)])
  | _ => .exn "protocol violation"

/-! ## Helper lemmas -/

/-- The deals loop never terminates on the stalling fetcher, whatever the
fuel, cursor, accumulator and call count. -/
theorem dealsLoop_stall (fuel : Nat) : ∀ after acc calls,
    dealsLoop stallDealsFetcher fuel after acc calls = none := by
  induction fuel with
  | zero => intro after acc calls; rfl
  | succ n ih =>
      intro after acc calls
      exact ih (some (.str "c1")) (acc ++ []) (calls + 1)

/-- The engagements loop never terminates on the stalling fetcher from any
non-empty endpoint. -/
theorem engagementsLoop_stall (fuel : Nat) : ∀ ep acc calls, ep ≠ "" →
    engagementsLoop stallEngFetcher fuel (some ep) acc calls = none := by
  induction fuel with
  | zero =>
      intro ep acc calls h
      simp [engagementsLoop, h]
  | succ n ih =>
      intro ep acc calls h
      rw [engagementsLoop, if_neg h]
      exact ih ep (acc ++ []) (calls + 1) h

/-! ## Claim theorems -/

/-- C1, counterexample.  The claim says every terminal response satisfies
the envelope invariant (exactly one of `result`/`error` non-null), the
Dispatcher coercing `dict(status=...)`-shaped handler returns at the outer
boundary.  False: when `create_contact` succeeds, `call_tool` serializes
the handler's native `dict(status="success", contact=...)` verbatim, and
that response has neither a `result` nor an `error` field. -/
theorem C1_counterexample :
    envelopeExactlyOne
      (call_tool
        (fun _ => ⟨.ret (create_contact (.success (Json.obj []))).1, 1⟩)
        "create_contact" (Json.obj [])).1 = false := rfl

/-- C1, amended.  The Dispatcher performs no envelope coercion: for every
known tool, on handler success `call_tool` returns the handler's native
value verbatim, and only on a caught exception does it return the error
dict, which has `error = str(e)` and no `result` field. -/
theorem C1_amended (w : String → Invocation) (name : String) (args : Json)
    (hname : name ∈ toolNames) :
    (∀ v n, dispatchInvocation w name = ⟨.ret v, n⟩ →
      call_tool w name args = (v, n)) ∧
    (∀ e n, dispatchInvocation w name = ⟨.raise e, n⟩ →
      call_tool w name args = (errorResponse (strOfError e) name args, n) ∧
      (call_tool w name args).1.getField "error" =
        some (.str (strOfError e)) ∧
      isNullish ((call_tool w name args).1.getField "result") = true) := by
  constructor
  · intro v n h
    simp [call_tool, hname, h]
  · intro e n h
    refine ⟨?_, ?_, ?_⟩ <;>
      simp [call_tool, hname, h, errorResponse, Json.getField, isNullish]

/-- C1, witness for the amended theorem. -/
theorem C1_amended_witness :
    call_tool (fun _ => ⟨.ret (Json.str "x"), 1⟩) "create_contact"
      (Json.obj []) = (Json.str "x", 1) :=
  (C1_amended (fun _ => ⟨.ret (Json.str "x"), 1⟩) "create_contact"
    (Json.obj []) (by decide)).1 (Json.str "x") 1 rfl

/-- C2.  For every tool name and argument mapping, if the routed handler
invocation raises an exception, `call_tool` catches it and returns the
error dict with `error = str(e)` and no `result` field; no exception
propagates (the model of `call_tool` is a total function into responses). -/
theorem C2_dispatcher_catches (w : String → Invocation) (name : String)
    (args : Json) (e : PyError) (n : Nat) (hname : name ∈ toolNames)
    (h : dispatchInvocation w name = ⟨.raise e, n⟩) :
    call_tool w name args = (errorResponse (strOfError e) name args, n) ∧
    (call_tool w name args).1.getField "error" = some (.str (strOfError e)) ∧
    isNullish ((call_tool w name args).1.getField "result") = true := by
  refine ⟨?_, ?_, ?_⟩ <;>
    simp [call_tool, hname, h, errorResponse, Json.getField, isNullish]

/-- C2, witness. -/
theorem C2_dispatcher_catches_witness :
    call_tool (fun _ => ⟨.raise (.valueError "boom"), 0⟩) "create_contact"
        (Json.obj []) =
      (errorResponse "boom" "create_contact" (Json.obj []), 0) :=
  (C2_dispatcher_catches (fun _ => ⟨.raise (.valueError "boom"), 0⟩)
    "create_contact" (Json.obj []) (.valueError "boom") 0 (by decide) rfl).1

/-- C5.  For every unknown operation name, `call_tool` returns the error
dict whose `error` is exactly `"Unknown tool: <name>"`, with no `result`
field, performing zero HTTP requests (no handler is invoked). -/
theorem C5_unknown_tool (w : String → Invocation) (name : String)
    (args : Json) (h : name ∉ toolNames) :
    call_tool w name args =
      (errorResponse ("Unknown tool: " ++ name) name args, 0) ∧
    (call_tool w name args).1.getField "error" =
      some (.str ("Unknown tool: " ++ name)) ∧
    isNullish ((call_tool w name args).1.getField "result") = true ∧
    (call_tool w name args).2 = 0 := by
  refine ⟨?_, ?_, ?_, ?_⟩ <;>
    simp [call_tool, h, errorResponse, Json.getField, isNullish]

/-- C5, witness. -/
theorem C5_unknown_tool_witness :
    call_tool (fun _ => ⟨.ret (Json.str "x"), 1⟩) "bogus_tool" (Json.obj []) =
      (errorResponse "Unknown tool: bogus_tool" "bogus_tool" (Json.obj []), 0) :=
  (C5_unknown_tool (fun _ => ⟨.ret (Json.str "x"), 1⟩) "bogus_tool"
    (Json.obj []) (by decide)).1

/-- On any oracle, the attribute step resolves to the `AttributeError`
error response: `get_all_contacts` is not among the methods of the
company-module `HubSpotClient` class. -/
theorem companyAttrStep_eq (w : String → Invocation) (args : Json) (n : Nat) :
    companyAttrStep w args n =
      (errorResponse (noAttrMsg "get_all_contacts") "get_all_contacts" args,
       n, true) := rfl

/-- C10, counterexample.  The claim says every `get_all_contacts`
invocation raises `AttributeError` (converted to an error response) and
performs no HTTP call.  False on a cold start: with no client constructed
and no usable credentials, the lazy `HubSpotClient()` construction raises
the credential `ValueError`, so the response carries the credential
message, not the `AttributeError` one; and with complete broker
configuration the construction performs one outbound broker HTTP request
before the attribute lookup can fail. -/
theorem C10_counterexample :
    (call_tool_get_all_contacts (fun _ => ⟨.ret (Json.str "x"), 1⟩) false
        ⟨none, none, none, none, none⟩ (.failure "down") (Json.obj [])).1 =
      errorResponse
        ("Failed to get access token: Missing required environment variables: " ++
         "NANGO_CONNECTION_ID, NANGO_INTEGRATION_ID, NANGO_BASE_URL, NANGO_SECRET_KEY")
        "get_all_contacts" (Json.obj []) ∧
    ("Failed to get access token: Missing required environment variables: " ++
     "NANGO_CONNECTION_ID, NANGO_INTEGRATION_ID, NANGO_BASE_URL, NANGO_SECRET_KEY" :
      String) ≠ noAttrMsg "get_all_contacts" ∧
    (call_tool_get_all_contacts (fun _ => ⟨.ret (Json.str "x"), 1⟩) false
        ⟨some "c", some "i", some "b", some "s", none⟩
        (.ok (.obj [("credentials", .obj [("access_token", .str "T")])]))
        (Json.obj [])).2.1 = 1 :=
  ⟨rfl, by decide, rfl⟩

/-- C10, amended.  Every `get_all_contacts` invocation returns an error
response and never contact data: once the lazily-constructed company
client exists, the attribute lookup raises `AttributeError` (the class
defines no `get_all_contacts`; the implementation on the never-imported
second `HubSpotClient` of `tools/contact.py` is unreachable) with no HTTP
activity; on a first invocation, `HubSpotClient()` runs
`get_access_token()`, which may perform a broker HTTP request, and when it
raises, the credential error becomes the response instead.  In every case
the response has a non-null `error` and no `result` field. -/
theorem C10_amended (w : String → Invocation) (constructed : Bool)
    (env : Env) (broker : BrokerReply) (args : Json) :
    (constructed = true →
      call_tool_get_all_contacts w constructed env broker args =
        (errorResponse (noAttrMsg "get_all_contacts") "get_all_contacts" args,
         0, true)) ∧
    (∀ tok n, constructed = false →
      get_access_token env broker = (.ok tok, n) →
      call_tool_get_all_contacts w constructed env broker args =
        (errorResponse (noAttrMsg "get_all_contacts") "get_all_contacts" args,
         n, true)) ∧
    (∀ e n, constructed = false →
      get_access_token env broker = (.error e, n) →
      call_tool_get_all_contacts w constructed env broker args =
        (errorResponse (strOfError e) "get_all_contacts" args, n, false)) ∧
    isNullish ((call_tool_get_all_contacts w constructed env broker
      args).1.getField "result") = true ∧
    isNullish ((call_tool_get_all_contacts w constructed env broker
      args).1.getField "error") = false := by
  refine ⟨?_, ?_, ?_, ?_, ?_⟩
  · intro hc; subst hc; rfl
  · intro tok n hc hok; subst hc
    simp [call_tool_get_all_contacts, hok, companyAttrStep_eq]
  · intro e n hc herr; subst hc
    simp [call_tool_get_all_contacts, herr]
  · cases constructed with
    | true => rfl
    | false =>
        rcases hga : get_access_token env broker with ⟨r, n⟩
        cases r <;>
          simp [call_tool_get_all_contacts, hga, companyAttrStep_eq,
            errorResponse, Json.getField, isNullish]
  · cases constructed with
    | true => rfl
    | false =>
        rcases hga : get_access_token env broker with ⟨r, n⟩
        cases r <;>
          simp [call_tool_get_all_contacts, hga, companyAttrStep_eq,
            errorResponse, Json.getField, isNullish]

/-- C10, witness for the amended theorem. -/
theorem C10_amended_witness :
    call_tool_get_all_contacts (fun _ => ⟨.ret (Json.str "x"), 1⟩) true
        ⟨none, none, none, none, none⟩ (.failure "down") (Json.obj []) =
      (errorResponse (noAttrMsg "get_all_contacts") "get_all_contacts"
        (Json.obj []), 0, true) :=
  (C10_amended (fun _ => ⟨.ret (Json.str "x"), 1⟩) true
    ⟨none, none, none, none, none⟩ (.failure "down") (Json.obj [])).1 rfl

/-- C3, counterexample.  The claim says that after the first successful
token resolution the broker is contacted at most once per process.  False:
`get_access_token` holds no cache, so two sequential calls that both
succeed with token `"T"` contact the broker twice. -/
theorem C3_counterexample :
    (get_access_token_twice ⟨some "c", some "i", some "b", some "s", none⟩
        (.ok (.obj [("credentials",
          .obj [("access_token", .str "T")])]))).2 = 2 ∧
    (get_access_token ⟨some "c", some "i", some "b", some "s", none⟩
        (.ok (.obj [("credentials",
          .obj [("access_token", .str "T")])]))).1 = .ok (.str "T") :=
  ⟨rfl, rfl⟩

/-- C3, amended.  `get_access_token` caches nothing: whenever the broker
configuration is complete, every call performs exactly one broker request,
so two sequential calls perform two. -/
theorem C3_amended (env : Env) (broker : BrokerReply)
    (hconf : env.nangoConfigComplete = true) :
    (get_access_token env broker).2 = 1 ∧
    (get_access_token_twice env broker).2 = 2 := by
  have hcred : (get_connection_credentials env broker).2 = 1 := by
    cases broker <;> simp [get_connection_credentials, hconf]
  have hres : (resolveBrokerToken env broker).2 = 1 := by
    unfold resolveBrokerToken
    rcases hgc : get_connection_credentials env broker with ⟨r, m⟩
    have hm : m = 1 := by rw [hgc] at hcred; exact hcred
    subst hm
    cases r with
    | error e => simp
    | ok creds =>
        cases htok : extractToken creds with
        | none => simp [htok]
        | some tok => by_cases ht : tok.truthy <;> simp [htok, ht]
  have hone : (get_access_token env broker).2 = 1 := by
    unfold get_access_token
    rcases hrb : resolveBrokerToken env broker with ⟨r, m⟩
    have hm : m = 1 := by rw [hrb] at hres; exact hres
    subst hm
    cases r with
    | ok tok => simp
    | error e => by_cases he : envTruthy env.hubspot_access_token <;> simp [he]
  exact ⟨hone, by simp [get_access_token_twice, hone]⟩

/-- C3, witness for the amended theorem. -/
theorem C3_amended_witness :
    (get_access_token ⟨some "c", some "i", some "b", some "s", none⟩
        (.failure "down")).2 = 1 ∧
    (get_access_token_twice ⟨some "c", some "i", some "b", some "s", none⟩
        (.failure "down")).2 = 2 :=
  C3_amended ⟨some "c", some "i", some "b", some "s", none⟩ (.failure "down")
    (by decide)

/-- C4, counterexample.  The claim says a page fetcher that repeats its
cursor is detected and the loop fails with `PaginationError` within the
reported number of pages.  False: on the stalling fetcher `get_all_deals`
has not produced any terminal response after 100 iterations (the code has
no stall check and defines no `PaginationError`). -/
theorem C4_counterexample : get_all_deals stallDealsFetcher 100 = none :=
  dealsLoop_stall 100 none [] 0

/-- C4, amended.  Neither pagination loop detects a stall: on a fetcher
whose cursor repeats, `get_all_deals` and `get_engagements` fail to
terminate within any iteration bound (the loops run forever; no
`PaginationError` exists in the code, whose only loop exits are a missing
next cursor or an HTTP failure). -/
theorem C4_amended (fuel : Nat) :
    get_all_deals stallDealsFetcher fuel = none ∧
    get_engagements stallEngFetcher fuel = none :=
  ⟨dealsLoop_stall fuel none [] 0,
   engagementsLoop_stall fuel
     "https://api.hubapi.com/crm/v3/objects/engagements" [] 0 (by decide)⟩

/-- C4, witness for the amended theorem. -/
theorem C4_amended_witness :
    get_all_deals stallDealsFetcher 7 = none ∧
    get_engagements stallEngFetcher 7 = none :=
  C4_amended 7

/-- C6, counterexample.  The claim says every list-all operation follows
the cursor protocol, with 3 pages collected in 3 fetches.  False for
`get_all_companies`: on a first page that reports items `["a1"]` and a
next cursor `c1`, it performs exactly 1 request (not 3) and returns only
the first page's items. -/
theorem C6_counterexample :
    (get_all_companies (.success (Json.obj
      [("results", .arr [.str "a1"]),
       ("paging", .obj [("next", .obj [("after", .str "c1")])])]))).2 = 1 ∧
    (get_all_companies (.success (Json.obj
      [("results", .arr [.str "a1"]),
       ("paging", .obj [("next", .obj [("after", .str "c1")])])]))).1 =
      .obj [("result", .arr [.str "a1"]), ("error", .null)] :=
  ⟨rfl, rfl⟩

/-- C6, amended.  Only some list-all operations paginate:
`get_all_deals` follows the cursor protocol — on a fetcher returning three
pages with cursors `c1`, `c2`, none it returns the concatenation of the
three pages' items in order after exactly 3 fetches — while
`get_all_companies` performs a single request and returns only the first
page's items, ignoring the next cursor. -/
theorem C6_amended (p1 p2 p3 : List Json) :
    get_all_deals (threePageFetcher p1 p2 p3) 3 =
      some (okListEnvelope (p1 ++ p2 ++ p3), 3) ∧
    get_all_companies (.success (Json.obj
      [("results", .arr p1),
       ("paging", .obj [("next", .obj [("after", .str "c1")])])])) =
      (.obj [("result", .arr p1), ("error", .null)], 1) := by
  constructor
  · show dealsLoop (threePageFetcher p1 p2 p3) 3 none [] 0 =
      some (okListEnvelope (p1 ++ p2 ++ p3), 3)
    simp [dealsLoop, threePageFetcher, Json.getField, Json.asList,
      okListEnvelope, List.append_assoc]
  · rfl

/-- C6, witness for the amended theorem. -/
theorem C6_amended_witness :
    get_all_deals
        (threePageFetcher [Json.str "a"] [Json.str "b"] [Json.str "c"]) 3 =
      some (okListEnvelope [Json.str "a", Json.str "b", Json.str "c"], 3) :=
  (C6_amended [Json.str "a"] [Json.str "b"] [Json.str "c"]).1

/-- C7.  If the broker configuration is incomplete, or the broker call
fails, or the broker response lacks a (truthy) access token, and a static
fallback token is configured in the environment, then `get_access_token`
returns that static token. -/
theorem C7_static_fallback (env : Env) (broker : BrokerReply) (s : String)
    (hS : env.hubspot_access_token = some s) (hs : s ≠ "")
    (h : env.nangoConfigComplete = false ∨
         (∃ m, broker = .failure m) ∨
         (∃ body, broker = .ok body ∧
           ∀ t, extractToken body = some t → t.truthy = false)) :
    ∃ n, get_access_token env broker = (.ok (.str s), n) := by
  rcases hre : resolveBrokerToken env broker with ⟨r, n⟩
  cases r with
  | ok tok =>
      exfalso
      rcases h with hc | ⟨m, rfl⟩ | ⟨body, rfl, htok⟩
      · simp [resolveBrokerToken, get_connection_credentials, hc] at hre
      · by_cases hc : env.nangoConfigComplete <;>
          simp [resolveBrokerToken, get_connection_credentials, hc] at hre
      · by_cases hc : env.nangoConfigComplete
        · cases hext : extractToken body with
          | none =>
              simp [resolveBrokerToken, get_connection_credentials, hc,
                hext] at hre
          | some t =>
              simp [resolveBrokerToken, get_connection_credentials, hc,
                hext, htok t hext] at hre
        · simp [resolveBrokerToken, get_connection_credentials, hc] at hre
  | error e =>
      refine ⟨n, ?_⟩
      simp [get_access_token, hre, envTruthy, hS, hs]

/-- C7, witness. -/
theorem C7_static_fallback_witness :
    ∃ n, get_access_token ⟨none, none, none, none, some "S"⟩ (.failure "down") =
      (.ok (.str "S"), n) :=
  C7_static_fallback ⟨none, none, none, none, some "S"⟩ (.failure "down") "S"
    rfl (by decide) (.inl (by decide))

/-- C8.  With no broker configuration and no static token,
`get_access_token` fails with the credential `ValueError` whose message
carries the list of missing configuration variables, and never contacts
the broker. -/
theorem C8_credential_error (env : Env) (broker : BrokerReply)
    (h1 : env.nango_connection_id = none)
    (h2 : env.nango_integration_id = none)
    (h3 : env.nango_base_url = none)
    (h4 : env.nango_secret_key = none)
    (h5 : env.hubspot_access_token = none) :
    get_access_token env broker =
      (.error (.valueError
        ("Failed to get access token: Missing required environment variables: " ++
         "NANGO_CONNECTION_ID, NANGO_INTEGRATION_ID, NANGO_BASE_URL, NANGO_SECRET_KEY")),
       0) ∧
    env.missingVars = ["NANGO_CONNECTION_ID", "NANGO_INTEGRATION_ID",
      "NANGO_BASE_URL", "NANGO_SECRET_KEY"] := by
  obtain ⟨f1, f2, f3, f4, f5⟩ := env
  simp only at h1 h2 h3 h4 h5
  subst h1; subst h2; subst h3; subst h4; subst h5
  cases broker <;> exact ⟨rfl, rfl⟩

/-- C8, witness. -/
theorem C8_credential_error_witness :
    get_access_token ⟨none, none, none, none, none⟩ (.failure "down") =
      (.error (.valueError
        ("Failed to get access token: Missing required environment variables: " ++
         "NANGO_CONNECTION_ID, NANGO_INTEGRATION_ID, NANGO_BASE_URL, NANGO_SECRET_KEY")),
       0) :=
  (C8_credential_error ⟨none, none, none, none, none⟩ (.failure "down")
    rfl rfl rfl rfl rfl).1

/-- C9.  The claim's concrete instance holds (`www.example.com` normalizes
to `example.com`), but `_normalize_domain` uses Python `lstrip("www.")`,
which strips the leading character SET (w and the dot), not the prefix: on
`www.web.com` the filter value sent is `eb.com`, while the prefix-strip
the code's own comment and the spec describe yields `web.com`. -/
theorem C9_lstrip_bug :
    _normalize_domain "www.example.com" = "example.com" ∧
    _normalize_domain "www.web.com" = "eb.com" ∧
    stripWwwPrefixSpec "www.web.com" = "web.com" ∧
    search_company_by_domain_payload "www.web.com" 10 =
      .obj [
        ("filterGroups", .arr [
          .obj [("filters", .arr [
            .obj [("propertyName", .str "domain"), ("operator", .str "EQ"),
                  ("value", .str "eb.com")]])]]),
        ("properties", .arr [.str "name", .str "domain", .str "industry",
          .str "createdate", .str "hs_lastmodifieddate"]),
        ("limit", .num 10)] := by
  have hnorm : _normalize_domain "www.web.com" = "eb.com" := by decide
  refine ⟨by decide, hnorm, by decide, ?_⟩
  simp [search_company_by_domain_payload, hnorm]

end HubSpot
